import Mathlib

/-! Verification of the CareDocQA incident-response engine against its
specification.

The data model and the client-side operations are embedded from
`frontend/care-doc-qa-frontend/src/App.js` (session context, cost ledger,
chat / analyze / clear operations).  The server-side orchestration
(incident processor) is not part of the checked sources; those
definitions are modelled from the spec and are marked as such in their
doc comments.

Costs are modelled as rationals (the client stores them as numbers and
only ever adds per-call figures to a running total).  HTTP responses are
modelled as explicit values handed to the step functions: `none` stands
for a request that errored (network failure or error status), `some r`
for a successful response body `r`.
-/

namespace CareDocQA

/-- An entry of `analysis.triggered_policies` in a response body:
`{section, reason}` in the JSON; `section` is renamed `sectionRef`
because `section` is a Lean keyword. -/
structure TriggeredPolicy where
  sectionRef : String
  reason : String
deriving DecidableEq, Repr

/-- An entry of the `emails` array of an analysis:
`{recipient_type, subject, body, urgency, cc}`. -/
structure EmailDraft where
  recipient_type : String
  subject : String
  body : String
  urgency : String
  cc : List String
deriving DecidableEq, Repr

/-- The nested `analysis` object of an analysis response:
`{summary, triggered_policies, required_actions}`. -/
structure AnalysisInner where
  summary : String
  triggered_policies : List TriggeredPolicy
  required_actions : List String
deriving DecidableEq, Repr

/-- The full analysis payload (`data.analysis` of the `/analyze` response,
`data.analysis_data` of a `/chat` transcript-analysis response):
`{analysis, incident_report, emails}`.  The incident report is an ordered
mapping of field names to string values. -/
structure AnalysisData where
  analysis : AnalysisInner
  incident_report : List (String × String)
  emails : List EmailDraft
deriving DecidableEq, Repr

/-- The spec's IncidentAnalysisResult is carried on the wire in the
`AnalysisData` shape. -/
abbrev IncidentAnalysisResult := AnalysisData

/-- The React state `sessionContext` (App.js lines 17-23). -/
structure SessionContext where
  hasActiveIncident : Bool
  lastAnalysis : Option AnalysisData
  incidentSummary : String
  lastTranscriptTime : Option Nat
  originalTranscript : Option String
deriving DecidableEq, Repr

/-- The initial value of `sessionContext` (App.js lines 17-23). -/
def emptySessionContext : SessionContext :=
  { hasActiveIncident := false
    lastAnalysis := none
    incidentSummary := ""
    lastTranscriptTime := none
    originalTranscript := none }

/-- The client state the claims are about: the session context plus the
running cost total (`totalCost`). -/
structure AppState where
  sessionContext : SessionContext
  totalCost : ℚ
deriving DecidableEq, Repr

/-- The body of a `/chat` response: `{type, message, analysis_data?, cost?}`
(the fields the client reads; `tokens_used` only feeds message metadata). -/
structure ChatResponse where
  rtype : String
  message : String
  analysis_data : Option AnalysisData
  cost : Option ℚ
deriving DecidableEq, Repr

/-- The body of an `/analyze` response: `{analysis, cost?}`. -/
structure AnalyzeResponse where
  analysis : AnalysisData
  cost : Option ℚ
deriving DecidableEq, Repr

/-- The JS guard `!str.trim()`: truthy exactly when the string is empty
or consists of whitespace only. -/
def isBlank (s : String) : Bool := s.data.all Char.isWhitespace

/-- The session context committed after a successful transcript analysis
(the object literal of App.js lines 132-138 and 188-194): all five fields
are set together from the fresh analysis. -/
def recordAnalysisCtx (data : AnalysisData) (transcript : String) (now : Nat) :
    SessionContext :=
  { hasActiveIncident := true
    lastAnalysis := some data
    incidentSummary := data.analysis.summary
    lastTranscriptTime := some now
    originalTranscript := some transcript }

/-- The function `sendChatMessage` (App.js lines 94-159) as a state transformer.
`resp = none` is a failed request (the `catch` branch: only a system
message is added, no state committed).  On a `transcript_analysis`
response the context literal dereferences `data.analysis_data.analysis`,
so a missing `analysis_data` throws before any state is committed; with
it present the context is replaced wholesale and the cost total is
incremented by `data.cost || 0`.  Any other response type only adds the
cost. -/
def sendChatMessage (s : AppState) (msg : String) (now : Nat)
    (resp : Option ChatResponse) : AppState :=
  if isBlank msg then s
  else
    match resp with
    | none => s
    | some r =>
      if r.rtype = "transcript_analysis" then
        match r.analysis_data with
        | none => s
        | some d =>
          { sessionContext := recordAnalysisCtx d msg now
            totalCost := s.totalCost + r.cost.getD 0 }
      else
        { s with totalCost := s.totalCost + r.cost.getD 0 }

/-- The function `analyzeTranscript` (App.js lines 161-207) as a state transformer.
An empty (all-whitespace) transcript returns early; a failed request
commits nothing; a successful response replaces the session context
wholesale and adds `data.cost || 0` to the running total. -/
def analyzeTranscript (s : AppState) (transcript : String) (now : Nat)
    (resp : Option AnalyzeResponse) : AppState :=
  if isBlank transcript then s
  else
    match resp with
    | none => s
    | some r =>
      { sessionContext := recordAnalysisCtx r.analysis transcript now
        totalCost := s.totalCost + r.cost.getD 0 }

/-- The function `clearSessionContext` (App.js lines 266-275): resets the context to
the same literal as the initial state; the cost total is untouched. -/
def clearSessionContext (s : AppState) : AppState :=
  { s with sessionContext := emptySessionContext }

/-- The shape of the `session_context` object the client attaches to a
`/chat` request (App.js lines 111-116). -/
structure SessionContextPayload where
  has_active_incident : Bool
  last_analysis : AnalysisData
  incident_summary : String
  original_transcript : Option String
deriving DecidableEq, Repr

/-- The `/chat` request payload: always the message, plus the session
context when one is attached. -/
structure ChatRequestPayload where
  message : String
  session_context : Option SessionContextPayload
deriving DecidableEq, Repr

/-- Construction of the `/chat` request payload (App.js lines 104-117):
the grounding object is attached exactly when
`sessionContext.hasActiveIncident && sessionContext.lastAnalysis` is
truthy. -/
def buildChatPayload (msg : String) (ctx : SessionContext) :
    ChatRequestPayload :=
  match ctx.hasActiveIncident, ctx.lastAnalysis with
  | true, some a =>
    { message := msg
      session_context := some
        { has_active_incident := true
          last_analysis := a
          incident_summary := ctx.incidentSummary
          original_transcript := ctx.originalTranscript } }
  | _, _ => { message := msg, session_context := none }

/-- One client-observable operation of the system. -/
inductive Step : AppState → AppState → Prop
  | chat (s : AppState) (msg : String) (now : Nat)
      (resp : Option ChatResponse) :
      Step s (sendChatMessage s msg now resp)
  | analyze (s : AppState) (transcript : String) (now : Nat)
      (resp : Option AnalyzeResponse) :
      Step s (analyzeTranscript s transcript now resp)
  | clear (s : AppState) : Step s (clearSessionContext s)

/-- States the client can be in: the initial state (empty context, cost
restored from localStorage) followed by any sequence of operations. -/
inductive Reachable : AppState → Prop
  | init (c : ℚ) : Reachable ⟨emptySessionContext, c⟩
  | step {s t : AppState} : Reachable s → Step s t → Reachable t

/-- The three context fields the spec ties together move as one: active
exactly when an analysis is stored, exactly when a transcript is stored. -/
def contextConsistent (c : SessionContext) : Prop :=
  (c.hasActiveIncident = true ↔ c.lastAnalysis.isSome = true) ∧
  (c.hasActiveIncident = true ↔ c.originalTranscript.isSome = true)

namespace Engine

/-- Modelled from the spec: the error taxonomy of §7 (the incident
processor's code is not among the checked sources).  `ConsistencyViolation`
is a `SchemaError` subtype per §7 and is not distinguished here. -/
inductive EngineError
  | validationError
  | schemaError
  | capabilityError
deriving DecidableEq, Repr

/-- Modelled from the spec: a policy corpus entry (§3 PolicySection). -/
structure PolicySection where
  id : String
  title : String
  bodyText : String
deriving DecidableEq, Repr

/-- Modelled from the spec: the outcome of the Analysis Capability
Adapter for a transcript-analysis call (§4.1); the external capability
itself is a black box, so its outcome is an explicit argument.
`success` is a response that parsed into the output schema after the
Adapter's bounded retries, `malformed` an output still unparseable after
them, `transportFailure` a network/timeout failure after the one
automatic retry. -/
inductive CapOutcome
  | success (raw : AnalysisData)
  | malformed
  | transportFailure
deriving DecidableEq, Repr

/-- Modelled from the spec: representative required fields of the
fixed-arity IncidentReport schema (§3: "reporter, date/time, description,
actions-taken, severity, follow-up-required, ..."). -/
def requiredReportFields : List String :=
  ["reporter", "date_time", "description", "actions_taken",
   "severity", "follow_up_required"]

/-- Look up a field of an incident report (ordered field-name/value
pairs). -/
def lookupField (report : List (String × String)) (f : String) :
    Option String :=
  (report.find? (fun p => p.1 == f)).map Prod.snd

/-- A required field is populated when present with a non-empty value. -/
def fieldPopulated (report : List (String × String)) (f : String) : Bool :=
  match lookupField report f with
  | some v => v != ""
  | none => false

/-- Modelled from the spec: the post-validation of §4.2 — every required
field populated with a non-empty string. -/
def reportValid (report : List (String × String)) : Bool :=
  requiredReportFields.all (fieldPopulated report)

/-- Walk the triggered-policy list keeping each entry whose
policy-section-ref has not been seen yet. -/
def dedupTriggeredAux (seen : List String) :
    List TriggeredPolicy → List TriggeredPolicy
  | [] => []
  | p :: rest =>
    if seen.contains p.sectionRef then dedupTriggeredAux seen rest
    else p :: dedupTriggeredAux (p.sectionRef :: seen) rest

/-- Modelled from the spec: collapse TriggeredPolicy duplicates by
policy-section-ref, keeping the first occurrence (§3, §4.2). -/
def dedupTriggered (l : List TriggeredPolicy) : List TriggeredPolicy :=
  dedupTriggeredAux [] l

/-- Modelled from the spec: `analyzeTranscript(transcript, policyCorpus)`
of the Policy Match & Analysis Orchestrator (§4.2).  Preconditions are
checked first (`ValidationError`), capability failures map to the §7
taxonomy, the returned report is post-validated (`SchemaError` when a
required field is missing or empty), and triggered policies are
deduplicated keeping first occurrences. -/
def analyzeTranscript (transcript : String) (corpus : List PolicySection)
    (cap : CapOutcome) : Except EngineError IncidentAnalysisResult :=
  if transcript.isEmpty then .error .validationError
  else if corpus.isEmpty then .error .validationError
  else
    match cap with
    | .transportFailure => .error .capabilityError
    | .malformed => .error .schemaError
    | .success raw =>
      if reportValid raw.incident_report then
        .ok { raw with
              analysis := { raw.analysis with
                triggered_policies :=
                  dedupTriggered raw.analysis.triggered_policies } }
      else .error .schemaError

/-- An artifact of the current incident: a document type naming it and
its full content. -/
structure Artifact where
  docType : String
  content : String
deriving DecidableEq, Repr

/-- Modelled from the spec: the `UpdateResult` of §4.3 —
`{updated_document, requires_cross_updates, cross_updates, explanation}`,
a cross-update entry being `{document_type, reason}`. -/
structure UpdateResult where
  updated_document : String
  requires_cross_updates : Bool
  cross_updates : List (String × String)
  explanation : String
deriving DecidableEq, Repr

/-- Modelled from the spec: the Adapter outcome for a document-update
call. -/
inductive UpdateCapOutcome
  | success (r : UpdateResult)
  | malformed
  | transportFailure
deriving DecidableEq, Repr

/-- Modelled from the spec: `updateDocument(feedback, documentType,
currentContent, allDocuments)` of the Document Consistency Manager
(§4.3): empty feedback is a `ValidationError`; capability failures map
as in §7; an echoed-back unchanged document is a `ValidationError`
(no-op rejection); a cross-update naming a document type absent from
`allDocuments` is a `SchemaError`.  On success, the caller-visible
artifact set replaces the target document's content and keeps every
other artifact as it was. -/
def updateDocument (feedback docType currentContent : String)
    (allDocuments : List Artifact) (cap : UpdateCapOutcome) :
    Except EngineError (UpdateResult × List Artifact) :=
  if feedback.isEmpty then .error .validationError
  else
    match cap with
    | .transportFailure => .error .capabilityError
    | .malformed => .error .schemaError
    | .success r =>
      if r.updated_document == currentContent then .error .validationError
      else if r.cross_updates.all
          (fun cu => allDocuments.any (fun a => a.docType == cu.1)) then
        .ok (r, allDocuments.map (fun a =>
          if a.docType == docType then
            { a with content := r.updated_document }
          else a))
      else .error .schemaError

/-- Concrete incident report with every required field populated, for
instantiating theorems. -/
def sampleReport : List (String × String) :=
  [("reporter", "Julie Peaterson"), ("date_time", "2024-01-01 09:00"),
   ("description", "service user fell again this week"),
   ("actions_taken", "assessed for injury"), ("severity", "high"),
   ("follow_up_required", "yes")]

/-- Concrete triggered-policy list with a duplicate section ref. -/
def samplePolicies : List TriggeredPolicy :=
  [⟨"Section 3", "first fall"⟩, ⟨"Section 3", "second fall"⟩,
   ⟨"Section 1", "medication"⟩]

/-- Concrete raw analysis output, for instantiating theorems. -/
def sampleRaw : AnalysisData :=
  { analysis :=
      { summary := "repeated falls"
        triggered_policies := samplePolicies
        required_actions := ["notify risk assessor"] }
    incident_report := sampleReport
    emails := [] }

/-- A second concrete analysis, distinct from `sampleRaw`. -/
def sampleRaw2 : AnalysisData :=
  { analysis :=
      { summary := "medication refusal"
        triggered_policies := [⟨"Section 1", "refused meds"⟩]
        required_actions := ["inform GP"] }
    incident_report := sampleReport
    emails := [] }

/-- Concrete non-empty policy corpus, for instantiating theorems. -/
def sampleCorpus : List PolicySection :=
  [⟨"Section 3", "Falls", "falls policy text"⟩]

/-- The result the orchestrator returns for `sampleRaw`: the duplicate
"Section 3" entry collapsed to its first occurrence. -/
def dedupSample : AnalysisData :=
  { analysis :=
      { summary := "repeated falls"
        triggered_policies :=
          [⟨"Section 3", "first fall"⟩, ⟨"Section 1", "medication"⟩]
        required_actions := ["notify risk assessor"] }
    incident_report := sampleReport
    emails := [] }

end Engine

/-- A concrete session context with an active incident, for instantiating
theorems. -/
def activeCtx : SessionContext :=
  { hasActiveIncident := true
    lastAnalysis := some Engine.sampleRaw
    incidentSummary := "repeated falls"
    lastTranscriptTime := some 3
    originalTranscript := some "Greg: I have fallen again" }

namespace Engine

theorem dedupTriggeredAux_sublist (seen : List String)
    (l : List TriggeredPolicy) :
    (dedupTriggeredAux seen l).Sublist l := by
  induction l generalizing seen with
  | nil => simp [dedupTriggeredAux]
  | cons p rest ih =>
    rw [dedupTriggeredAux]
    split
    · exact (ih seen).cons p
    · exact (ih (p.sectionRef :: seen)).cons₂ p

theorem dedupTriggered_sublist (l : List TriggeredPolicy) :
    (dedupTriggered l).Sublist l :=
  dedupTriggeredAux_sublist [] l

theorem filter_dedupTriggeredAux (ref : String) (seen : List String)
    (l : List TriggeredPolicy) :
    (dedupTriggeredAux seen l).filter (fun p => p.sectionRef == ref) =
      if seen.contains ref then []
      else (l.filter (fun p => p.sectionRef == ref)).take 1 := by
  induction l generalizing seen with
  | nil => simp [dedupTriggeredAux]
  | cons p rest ih =>
    rw [dedupTriggeredAux]
    by_cases hs : seen.contains p.sectionRef = true
    · rw [if_pos hs, ih seen]
      by_cases hp : p.sectionRef = ref
      · subst hp
        rw [if_pos hs, if_pos hs]
      · rw [List.filter_cons_of_neg (by simpa using hp)]
    · rw [if_neg hs]
      by_cases hp : p.sectionRef = ref
      · subst hp
        rw [List.filter_cons_of_pos (by simp),
          List.filter_cons_of_pos (by simp),
          ih (p.sectionRef :: seen), if_pos (by simp), if_neg hs]
        simp
      · have hrp : (ref == p.sectionRef) = false :=
          beq_eq_false_iff_ne.mpr (fun hcontra => hp hcontra.symm)
        rw [List.filter_cons_of_neg (by simpa using hp),
          List.filter_cons_of_neg (by simpa using hp),
          ih (p.sectionRef :: seen)]
        have hcontains : (p.sectionRef :: seen).contains ref =
            seen.contains ref := by
          rw [List.contains_cons, hrp, Bool.false_or]
        rw [hcontains]

theorem filter_dedupTriggered (l : List TriggeredPolicy) (ref : String) :
    (dedupTriggered l).filter (fun p => p.sectionRef == ref) =
      (l.filter (fun p => p.sectionRef == ref)).take 1 := by
  rw [dedupTriggered, filter_dedupTriggeredAux ref [] l]
  simp

end Engine

/-- Claim C1: for every non-empty transcript and non-empty policy corpus,
`analyzeTranscript` either returns a result whose incident report has
every required field populated with a non-empty string, or fails with a
typed error (`EngineError` covers exactly ValidationError, SchemaError
and CapabilityError); it never returns a report missing a required field
or with one set to the empty string. -/
theorem claim_C1 (t : String) (corpus : List Engine.PolicySection)
    (cap : Engine.CapOutcome) (ht : t ≠ "") (hc : corpus ≠ []) :
    (∃ e, Engine.analyzeTranscript t corpus cap = .error e) ∨
    (∃ res, Engine.analyzeTranscript t corpus cap = .ok res ∧
      ∀ f ∈ Engine.requiredReportFields,
        ∃ v, Engine.lookupField res.incident_report f = some v ∧ v ≠ "") := by
  cases cap with
  | transportFailure =>
    left
    unfold Engine.analyzeTranscript
    split
    · exact ⟨_, rfl⟩
    · split
      · exact ⟨_, rfl⟩
      · exact ⟨_, rfl⟩
  | malformed =>
    left
    unfold Engine.analyzeTranscript
    split
    · exact ⟨_, rfl⟩
    · split
      · exact ⟨_, rfl⟩
      · exact ⟨_, rfl⟩
  | success raw =>
    have hred : Engine.analyzeTranscript t corpus (.success raw) =
        if t.isEmpty then Except.error Engine.EngineError.validationError
        else if corpus.isEmpty then
          Except.error Engine.EngineError.validationError
        else if Engine.reportValid raw.incident_report then
          Except.ok { raw with analysis := { raw.analysis with
            triggered_policies :=
              Engine.dedupTriggered raw.analysis.triggered_policies } }
        else Except.error Engine.EngineError.schemaError := rfl
    rw [hred]
    split
    · exact .inl ⟨_, rfl⟩
    · split
      · exact .inl ⟨_, rfl⟩
      · by_cases hv : Engine.reportValid raw.incident_report
        · refine .inr ⟨_, by rw [if_pos hv], ?_⟩
          intro f hf
          have hp := List.all_eq_true.mp hv f hf
          unfold Engine.fieldPopulated at hp
          cases e : Engine.lookupField raw.incident_report f with
          | none => rw [e] at hp; cases hp
          | some v =>
            rw [e] at hp
            exact ⟨v, rfl, by simpa using hp⟩
        · exact .inl ⟨_, by rw [if_neg hv]⟩

/-- Claim C1 witness: a concrete successful run on a non-empty transcript
and corpus. -/
theorem claim_C1_witness :
    (∃ e, Engine.analyzeTranscript "Greg: I fell" Engine.sampleCorpus
        (.success Engine.sampleRaw) = .error e) ∨
    (∃ res, Engine.analyzeTranscript "Greg: I fell" Engine.sampleCorpus
        (.success Engine.sampleRaw) = .ok res ∧
      ∀ f ∈ Engine.requiredReportFields,
        ∃ v, Engine.lookupField res.incident_report f = some v ∧ v ≠ "") :=
  claim_C1 "Greg: I fell" Engine.sampleCorpus (.success Engine.sampleRaw)
    (by decide) (by decide)

/-- Claim C2: if the raw analysis output holds two TriggeredPolicy entries
with the same policy-section-ref, the result returned by the orchestrator
holds exactly one entry for that ref — the first occurrence — and the
result's triggered-policy list is a subsequence of the raw one (later
duplicates dropped, order preserved). -/
theorem claim_C2 (t : String) (corpus : List Engine.PolicySection)
    (raw res : AnalysisData) (ref : String)
    (h : Engine.analyzeTranscript t corpus (.success raw) = .ok res)
    (hdup : 2 ≤ (raw.analysis.triggered_policies.filter
        (fun p => p.sectionRef == ref)).length) :
    res.analysis.triggered_policies.filter (fun p => p.sectionRef == ref) =
      (raw.analysis.triggered_policies.filter
        (fun p => p.sectionRef == ref)).take 1 ∧
    (res.analysis.triggered_policies.filter
        (fun p => p.sectionRef == ref)).length = 1 ∧
    res.analysis.triggered_policies.Sublist raw.analysis.triggered_policies := by
  have hres : res.analysis.triggered_policies =
      Engine.dedupTriggered raw.analysis.triggered_policies := by
    have hred : Engine.analyzeTranscript t corpus (.success raw) =
        if t.isEmpty then Except.error Engine.EngineError.validationError
        else if corpus.isEmpty then
          Except.error Engine.EngineError.validationError
        else if Engine.reportValid raw.incident_report then
          Except.ok { raw with analysis := { raw.analysis with
            triggered_policies :=
              Engine.dedupTriggered raw.analysis.triggered_policies } }
        else Except.error Engine.EngineError.schemaError := rfl
    rw [hred] at h
    split at h
    · cases h
    · split at h
      · cases h
      · split at h
        · rw [Except.ok.injEq] at h
          rw [← h]
        · cases h
  refine ⟨?_, ?_, ?_⟩
  · rw [hres, Engine.filter_dedupTriggered]
  · rw [hres, Engine.filter_dedupTriggered, List.length_take]
    omega
  · rw [hres]
    exact Engine.dedupTriggered_sublist _

/-- Claim C2 witness: a concrete run whose raw output repeats a section
ref; the result keeps exactly the first occurrence. -/
theorem claim_C2_witness :
    (Engine.dedupSample.analysis.triggered_policies.filter
        (fun p => p.sectionRef == "Section 3")) =
      (Engine.sampleRaw.analysis.triggered_policies.filter
        (fun p => p.sectionRef == "Section 3")).take 1 ∧
    (Engine.dedupSample.analysis.triggered_policies.filter
        (fun p => p.sectionRef == "Section 3")).length = 1 ∧
    Engine.dedupSample.analysis.triggered_policies.Sublist
      Engine.sampleRaw.analysis.triggered_policies :=
  claim_C2 "Greg: I fell" Engine.sampleCorpus Engine.sampleRaw
    Engine.dedupSample "Section 3" rfl (by decide)

/-- Claim C3: a failed analyze or chat request (`resp = none`, the `catch`
path), and equally a transcript-analysis chat response whose
`analysis_data` is missing (the context literal throws before committing),
leaves the session context exactly as it was. -/
theorem claim_C3 (s : AppState) (msg transcript m : String)
    (n1 n2 n3 : Nat) (c : Option ℚ) :
    (sendChatMessage s msg n1 none).sessionContext = s.sessionContext ∧
    (analyzeTranscript s transcript n2 none).sessionContext =
      s.sessionContext ∧
    (sendChatMessage s m n3
        (some ⟨"transcript_analysis", m, none, c⟩)).sessionContext =
      s.sessionContext := by
  refine ⟨?_, ?_, ?_⟩
  · unfold sendChatMessage
    split <;> rfl
  · unfold analyzeTranscript
    split <;> rfl
  · unfold sendChatMessage
    split
    · rfl
    · simp

/-- Claim C4: two successful analyses in a row leave exactly the second
one's derived fields in the session context — recording replaces the
prior ACTIVE state wholesale, no field of the first analysis survives. -/
theorem claim_C4 (s : AppState) (r1 r2 : AnalyzeResponse)
    (t1 t2 : String) (n1 n2 : Nat)
    (h1 : isBlank t1 = false) (h2 : isBlank t2 = false) :
    (analyzeTranscript (analyzeTranscript s t1 n1 (some r1)) t2 n2
        (some r2)).sessionContext = recordAnalysisCtx r2.analysis t2 n2 ∧
    (analyzeTranscript (analyzeTranscript s t1 n1 (some r1)) t2 n2
        (some r2)).sessionContext.hasActiveIncident = true ∧
    (analyzeTranscript (analyzeTranscript s t1 n1 (some r1)) t2 n2
        (some r2)).sessionContext.lastAnalysis = some r2.analysis ∧
    (analyzeTranscript (analyzeTranscript s t1 n1 (some r1)) t2 n2
        (some r2)).sessionContext.incidentSummary =
      r2.analysis.analysis.summary ∧
    (analyzeTranscript (analyzeTranscript s t1 n1 (some r1)) t2 n2
        (some r2)).sessionContext.originalTranscript = some t2 := by
  have hstep : analyzeTranscript (analyzeTranscript s t1 n1 (some r1)) t2 n2
      (some r2) =
      { sessionContext := recordAnalysisCtx r2.analysis t2 n2
        totalCost := (analyzeTranscript s t1 n1 (some r1)).totalCost
          + r2.cost.getD 0 } := by
    unfold analyzeTranscript
    rw [if_neg (by simp [h2])]
  rw [hstep]
  exact ⟨rfl, rfl, rfl, rfl, rfl⟩

/-- Claim C4 witness: two concrete analyses; the context afterwards holds
exactly the second one's fields. -/
theorem claim_C4_witness :
    (analyzeTranscript (analyzeTranscript ⟨emptySessionContext, 0⟩ "t1" 1
        (some ⟨Engine.sampleRaw, some 1⟩)) "t2" 2
        (some ⟨Engine.sampleRaw2, none⟩)).sessionContext =
      recordAnalysisCtx Engine.sampleRaw2 "t2" 2 ∧
    (analyzeTranscript (analyzeTranscript ⟨emptySessionContext, 0⟩ "t1" 1
        (some ⟨Engine.sampleRaw, some 1⟩)) "t2" 2
        (some ⟨Engine.sampleRaw2, none⟩)).sessionContext.hasActiveIncident
      = true ∧
    (analyzeTranscript (analyzeTranscript ⟨emptySessionContext, 0⟩ "t1" 1
        (some ⟨Engine.sampleRaw, some 1⟩)) "t2" 2
        (some ⟨Engine.sampleRaw2, none⟩)).sessionContext.lastAnalysis =
      some Engine.sampleRaw2 ∧
    (analyzeTranscript (analyzeTranscript ⟨emptySessionContext, 0⟩ "t1" 1
        (some ⟨Engine.sampleRaw, some 1⟩)) "t2" 2
        (some ⟨Engine.sampleRaw2, none⟩)).sessionContext.incidentSummary =
      Engine.sampleRaw2.analysis.summary ∧
    (analyzeTranscript (analyzeTranscript ⟨emptySessionContext, 0⟩ "t1" 1
        (some ⟨Engine.sampleRaw, some 1⟩)) "t2" 2
        (some ⟨Engine.sampleRaw2, none⟩)).sessionContext.originalTranscript
      = some "t2" :=
  claim_C4 ⟨emptySessionContext, 0⟩ ⟨Engine.sampleRaw, some 1⟩
    ⟨Engine.sampleRaw2, none⟩ "t1" "t2" 1 2 (by decide) (by decide)

/-- Claim C5: clearing yields the empty context (inactive, no analysis,
no transcript), clearing is idempotent, and a read after any clear
reports no active incident. -/
theorem claim_C5 (s : AppState) :
    (clearSessionContext s).sessionContext = emptySessionContext ∧
    (clearSessionContext s).sessionContext.hasActiveIncident = false ∧
    (clearSessionContext s).sessionContext.lastAnalysis = none ∧
    (clearSessionContext s).sessionContext.originalTranscript = none ∧
    clearSessionContext (clearSessionContext s) = clearSessionContext s :=
  ⟨rfl, rfl, rfl, rfl, rfl⟩

/-- Claim C6: a chat response answered as anything other than a
transcript analysis (policy question or contextual follow-up) leaves the
session context identical: follow-up answering reads the context but
never writes it. -/
theorem claim_C6 (s : AppState) (msg : String) (now : Nat)
    (r : ChatResponse) (h : r.rtype ≠ "transcript_analysis") :
    (sendChatMessage s msg now (some r)).sessionContext =
      s.sessionContext := by
  unfold sendChatMessage
  split
  · rfl
  · simp only [if_neg h]

/-- Claim C6 witness: a concrete policy-question response leaves a
concrete active context untouched. -/
theorem claim_C6_witness :
    (sendChatMessage ⟨activeCtx, 5⟩ "Should we notify the family?" 7
        (some ⟨"policy_question", "yes", none, some 1⟩)).sessionContext =
      (⟨activeCtx, 5⟩ : AppState).sessionContext :=
  claim_C6 ⟨activeCtx, 5⟩ "Should we notify the family?" 7
    ⟨"policy_question", "yes", none, some 1⟩ (by decide)

/-- Claim C7: the outgoing chat payload carries the session-context
grounding (last analysis, incident summary, original transcript) exactly
when the context has an active incident with a non-null last analysis;
otherwise the payload carries only the message. -/
theorem claim_C7 (msg : String) (ctx : SessionContext) :
    ((buildChatPayload msg ctx).session_context.isSome = true ↔
      ctx.hasActiveIncident = true ∧ ctx.lastAnalysis.isSome = true) ∧
    (∀ a, ctx.hasActiveIncident = true → ctx.lastAnalysis = some a →
      buildChatPayload msg ctx =
        { message := msg
          session_context := some
            { has_active_incident := true
              last_analysis := a
              incident_summary := ctx.incidentSummary
              original_transcript := ctx.originalTranscript } }) ∧
    (¬(ctx.hasActiveIncident = true ∧ ctx.lastAnalysis.isSome = true) →
      buildChatPayload msg ctx =
        { message := msg, session_context := none }) := by
  obtain ⟨b, la, sum, time, ot⟩ := ctx
  cases b <;> cases la <;> simp [buildChatPayload]

/-- Claim C7 witness: with a concrete active context the payload carries
the grounding fields. -/
theorem claim_C7_witness :
    buildChatPayload "what about the incident?" activeCtx =
      { message := "what about the incident?"
        session_context := some
          { has_active_incident := true
            last_analysis := Engine.sampleRaw
            incident_summary := activeCtx.incidentSummary
            original_transcript := activeCtx.originalTranscript } } :=
  (claim_C7 "what about the incident?" activeCtx).2.1
    Engine.sampleRaw rfl rfl

/-- Claim C8: the running cost total never decreases: a successful chat
or analyze adds a nonnegative per-call cost (the boundary contract
derives it from token usage times a price), a failed one leaves it
unchanged, and clearing the context does not touch it. -/
theorem claim_C8 (s : AppState) (msg transcript : String) (n1 n2 : Nat)
    (rc : ChatResponse) (ra : AnalyzeResponse)
    (hc : 0 ≤ rc.cost.getD 0) (ha : 0 ≤ ra.cost.getD 0) :
    s.totalCost ≤ (sendChatMessage s msg n1 (some rc)).totalCost ∧
    s.totalCost ≤ (analyzeTranscript s transcript n2 (some ra)).totalCost ∧
    (sendChatMessage s msg n1 none).totalCost = s.totalCost ∧
    (analyzeTranscript s transcript n2 none).totalCost = s.totalCost ∧
    (clearSessionContext s).totalCost = s.totalCost := by
  refine ⟨?_, ?_, ?_, ?_, rfl⟩
  · obtain ⟨ty, m, ad, c⟩ := rc
    cases ad with
    | none =>
      have hred : sendChatMessage s msg n1 (some ⟨ty, m, none, c⟩) =
          if isBlank msg then s
          else if ty = "transcript_analysis" then s
          else { s with totalCost := s.totalCost + c.getD 0 } := rfl
      rw [hred]
      split
      · exact le_refl _
      · split
        · exact le_refl _
        · exact le_add_of_nonneg_right hc
    | some d =>
      have hred : sendChatMessage s msg n1 (some ⟨ty, m, some d, c⟩) =
          if isBlank msg then s
          else if ty = "transcript_analysis" then
            { sessionContext := recordAnalysisCtx d msg n1
              totalCost := s.totalCost + c.getD 0 }
          else { s with totalCost := s.totalCost + c.getD 0 } := rfl
      rw [hred]
      split
      · exact le_refl _
      · split
        · exact le_add_of_nonneg_right hc
        · exact le_add_of_nonneg_right hc
  · unfold analyzeTranscript
    split
    · exact le_refl _
    · exact le_add_of_nonneg_right ha
  · unfold sendChatMessage
    split <;> rfl
  · unfold analyzeTranscript
    split <;> rfl

/-- Claim C8 witness: a concrete chat and analyze with nonnegative costs
do not decrease a concrete total. -/
theorem claim_C8_witness :
    (⟨activeCtx, 5⟩ : AppState).totalCost ≤
      (sendChatMessage ⟨activeCtx, 5⟩ "q" 1
        (some ⟨"policy_question", "a", none, some 2⟩)).totalCost ∧
    (⟨activeCtx, 5⟩ : AppState).totalCost ≤
      (analyzeTranscript ⟨activeCtx, 5⟩ "t" 2
        (some ⟨Engine.sampleRaw, some 3⟩)).totalCost ∧
    (sendChatMessage ⟨activeCtx, 5⟩ "q" 1 none).totalCost =
      (⟨activeCtx, 5⟩ : AppState).totalCost ∧
    (analyzeTranscript ⟨activeCtx, 5⟩ "t" 2 none).totalCost =
      (⟨activeCtx, 5⟩ : AppState).totalCost ∧
    (clearSessionContext ⟨activeCtx, 5⟩).totalCost =
      (⟨activeCtx, 5⟩ : AppState).totalCost :=
  claim_C8 ⟨activeCtx, 5⟩ "q" "t" 1 2
    ⟨"policy_question", "a", none, some 2⟩ ⟨Engine.sampleRaw, some 3⟩
    (by norm_num) (by norm_num)

/-- Claim C9: a successful `updateDocument` returns every artifact whose
document type is neither the edit target nor named in the returned
cross-update list byte-identical, at its original position. -/
theorem claim_C9 (feedback docType currentContent : String)
    (allDocuments : List Engine.Artifact) (cap : Engine.UpdateCapOutcome)
    (r : Engine.UpdateResult) (out : List Engine.Artifact)
    (h : Engine.updateDocument feedback docType currentContent
      allDocuments cap = .ok (r, out)) :
    ∀ (i : Nat) (a : Engine.Artifact),
      allDocuments[i]? = some a → a.docType ≠ docType →
      (∀ cu ∈ r.cross_updates, cu.1 ≠ a.docType) →
      out[i]? = some a := by
  cases cap with
  | transportFailure =>
    unfold Engine.updateDocument at h
    split at h
    · cases h
    · cases h
  | malformed =>
    unfold Engine.updateDocument at h
    split at h
    · cases h
    · cases h
  | success r0 =>
    have hred : Engine.updateDocument feedback docType currentContent
        allDocuments (.success r0) =
        if feedback.isEmpty then
          Except.error Engine.EngineError.validationError
        else if r0.updated_document == currentContent then
          Except.error Engine.EngineError.validationError
        else if r0.cross_updates.all
            (fun cu => allDocuments.any (fun a => a.docType == cu.1)) then
          Except.ok (r0, allDocuments.map (fun a =>
            if a.docType == docType then
              { a with content := r0.updated_document }
            else a))
        else Except.error Engine.EngineError.schemaError := rfl
    rw [hred] at h
    split at h
    · cases h
    · split at h
      · cases h
      · split at h
        · rw [Except.ok.injEq, Prod.mk.injEq] at h
          obtain ⟨hr, hout⟩ := h
          subst hr
          subst hout
          intro i a hia hneq _
          rw [List.getElem?_map, hia, Option.map_some']
          have hfalse : (a.docType == docType) = false :=
            beq_eq_false_iff_ne.mpr hneq
          rw [hfalse]
          simp
        · cases h

/-- Claim C9 witness: a concrete email edit returns the sibling report
artifact byte-identical. -/
theorem claim_C9_witness :
    ([⟨"report", "r"⟩, ⟨"email", "new"⟩] : List Engine.Artifact)[0]? =
      some ⟨"report", "r"⟩ :=
  claim_C9 "make the email more urgent" "email" "old"
    [⟨"report", "r"⟩, ⟨"email", "old"⟩]
    (.success ⟨"new", false, [], "escalated"⟩)
    ⟨"new", false, [], "escalated"⟩
    [⟨"report", "r"⟩, ⟨"email", "new"⟩] rfl 0 ⟨"report", "r"⟩
    rfl (by decide) (by simp)

theorem step_preserves_contextConsistent {s t : AppState} (hst : Step s t)
    (ih : contextConsistent s.sessionContext) :
    contextConsistent t.sessionContext := by
  cases hst with
  | chat msg now resp =>
    cases resp with
    | none =>
      have hred : sendChatMessage s msg now none = s := by
        unfold sendChatMessage
        split <;> rfl
      rw [hred]
      exact ih
    | some r =>
      obtain ⟨ty, m, ad, c⟩ := r
      cases ad with
      | none =>
        have hred : sendChatMessage s msg now (some ⟨ty, m, none, c⟩) =
            if isBlank msg then s
            else if ty = "transcript_analysis" then s
            else { s with totalCost := s.totalCost + c.getD 0 } := rfl
        rw [hred]
        split
        · exact ih
        · split
          · exact ih
          · exact ih
      | some d =>
        have hred : sendChatMessage s msg now (some ⟨ty, m, some d, c⟩) =
            if isBlank msg then s
            else if ty = "transcript_analysis" then
              { sessionContext := recordAnalysisCtx d msg now
                totalCost := s.totalCost + c.getD 0 }
            else { s with totalCost := s.totalCost + c.getD 0 } := rfl
        rw [hred]
        split
        · exact ih
        · split
          · exact ⟨by simp [recordAnalysisCtx], by simp [recordAnalysisCtx]⟩
          · exact ih
  | analyze transcript now resp =>
    cases resp with
    | none =>
      have hred : analyzeTranscript s transcript now none = s := by
        unfold analyzeTranscript
        split <;> rfl
      rw [hred]
      exact ih
    | some r =>
      have hred : analyzeTranscript s transcript now (some r) =
          if isBlank transcript then s
          else
            { sessionContext := recordAnalysisCtx r.analysis transcript now
              totalCost := s.totalCost + r.cost.getD 0 } := rfl
      rw [hred]
      split
      · exact ih
      · exact ⟨by simp [recordAnalysisCtx], by simp [recordAnalysisCtx]⟩
  | clear =>
    exact ⟨by simp [clearSessionContext, emptySessionContext],
      by simp [clearSessionContext, emptySessionContext]⟩

/-- Claim C10: in every reachable client state the three context fields
agree: the incident is active exactly when an analysis is stored,
exactly when the original transcript is stored. -/
theorem claim_C10 (s : AppState) (h : Reachable s) :
    contextConsistent s.sessionContext := by
  induction h with
  | init c =>
    exact ⟨by simp [emptySessionContext], by simp [emptySessionContext]⟩
  | step hr hstep ih => exact step_preserves_contextConsistent hstep ih

/-- Claim C10 witness: the invariant at the initial state. -/
theorem claim_C10_witness :
    contextConsistent (⟨emptySessionContext, 0⟩ : AppState).sessionContext :=
  claim_C10 ⟨emptySessionContext, 0⟩ (Reachable.init 0)

end CareDocQA
